import Mathlib

/-!
Verification development for the deep-research agent (`agent.py`).

The repository orchestrates: plan → (search → fetch → extract) per angle →
synthesize.  External collaborators (the PydanticAI agents, the DuckDuckGo
search provider, and the HTTP client plus HTML cleaning) are modelled as
oracle parameters returning `Except`/`Option` values; all original logic of
the source (the SWOT post-processing rule, error fallbacks, truncation,
content attachment, prompt assembly and orchestration order) is embedded
faithfully below.
-/

namespace Agent

/-- Python substring membership on lists of characters: `prefixMatch p s`
is `true` iff `p` is a prefix of `s`. -/
def prefixMatch : List Char → List Char → Bool
  | [], _ => true
  | _ :: _, [] => false
  | a :: as, b :: bs => a == b && prefixMatch as bs

/-- `substrMatch pat s` is `true` iff `pat` occurs as a contiguous substring
of `s` — the semantics of Python's `pat in s` on code-point lists. -/
def substrMatch : List Char → List Char → Bool
  | pat, [] => pat.isEmpty
  | pat, c :: rest => prefixMatch pat (c :: rest) || substrMatch pat rest

/-- `containsSubstr s pat` mirrors the Python expression `pat in s`. -/
def containsSubstr (s pat : String) : Bool :=
  substrMatch pat.data s.data

/-- Python slicing `s[:n]`: the first `n` code points of `s`. -/
def pyTruncate (s : String) (n : Nat) : String :=
  String.mk (s.data.take n)

/-- Python `s.lower()`, character-wise (the source only ever compares
against ASCII keywords). -/
def pyLower (s : String) : String :=
  String.mk (s.data.map Char.toLower)

-- --- Data Models (`agent.py`, `class ResearchPlan` etc.) ---

/-- `ResearchPlan`: plan for the deep research. -/
structure ResearchPlan where
  is_ticker : Bool
  topic : String
  context : String
  angles : List String
deriving Repr, DecidableEq

/-- `ResearchResult`: raw result from a search query; `content` is the
optional fetched page text (defaults to `None`). -/
structure ResearchResult where
  title : String
  url : String
  snippet : String
  content : Option String := none
deriving Repr, DecidableEq

/-- `AngleData`: extracted data for a specific research angle. -/
structure AngleData where
  angle : String
  key_facts : List String
  claims : List String
  citations : List String
deriving Repr, DecidableEq

/-- `FinalReport`: the final synthesized report. -/
structure FinalReport where
  markdown_content : String
deriving Repr, DecidableEq

-- --- The SWOT post-processing rule ---

/-- The fixed keyword tuple of `ensure_swot_angle_if_applicable`. -/
def swotKeywords : List String :=
  ["company", "stock", "equity", "market cap", "earnings", "investor"]

/-- The trigger condition of `ensure_swot_angle_if_applicable`:
`plan.is_ticker`, or some fixed keyword occurs in the lowercased
`f"{plan.topic} {plan.context}"`. -/
def needsSwot (plan : ResearchPlan) : Bool :=
  plan.is_ticker ||
    (let combined := pyLower (plan.topic ++ " " ++ plan.context)
     swotKeywords.any (fun k => containsSubstr combined k))

/-- The per-angle test `"swot" in angle.lower()`. -/
def swotAngle (angle : String) : Bool :=
  containsSubstr (pyLower angle) "swot"

/-- `any("swot" in angle.lower() for angle in plan.angles)`. -/
def hasSwotAngle (angles : List String) : Bool :=
  angles.any swotAngle

/-- `ensure_swot_angle_if_applicable` (`agent.py` lines 45-63), as a pure
function returning the updated plan.  When the rule triggers and no angle
mentions SWOT: at 4 or more angles the last angle is overwritten
(`plan.angles[-1] = "SWOT analysis"`), otherwise `"SWOT analysis"` is
appended. -/
def ensure_swot_angle_if_applicable (plan : ResearchPlan) : ResearchPlan :=
  if needsSwot plan then
    if hasSwotAngle plan.angles then
      plan
    else if 4 ≤ plan.angles.length then
      { plan with angles := plan.angles.dropLast ++ ["SWOT analysis"] }
    else
      { plan with angles := plan.angles ++ ["SWOT analysis"] }
  else
    plan

-- --- External collaborators as oracles ---

/-- One raw hit from the DuckDuckGo provider: a dict whose keys
`title`/`href`/`body` may be absent (`r.get(key, '')`). -/
structure RawHit where
  title : Option String := none
  href : Option String := none
  body : Option String := none
deriving Repr, DecidableEq

/-- The external collaborators of `agent.py`, as black boxes:
* `ddgs q n` — the provider call `DDGS().text(q, max_results=n)`
  (`.error` = the provider raised);
* `fetchRaw url` — the HTTP GET plus `raise_for_status`, HTML parse,
  tag stripping and `get_text` (`.error` = timeout, non-2xx, parse error
  or any other exception inside the `try` block);
* `planner` / `extractor` / `synthesizer` — the three text-generation
  agents plus output unwrapping (`.error` = the call raised). -/
structure Oracles where
  ddgs : String → Nat → Except String (List RawHit)
  fetchRaw : String → Except String String
  planner : String → Except String ResearchPlan
  extractor : String → Except String AngleData
  synthesizer : String → Except String FinalReport

/-- Normalization of one raw hit inside `search_duckduckgo`:
`ResearchResult(title=r.get('title',''), url=r.get('href',''),
snippet=r.get('body',''))`. -/
def toResearchResult (r : RawHit) : ResearchResult :=
  { title := r.title.getD "", url := r.href.getD "",
    snippet := r.body.getD "", content := none }

/-- `search_duckduckgo` (`agent.py` lines 107-128): on provider failure the
`results` list is still empty, so the empty list is returned; on success the
raw hits are normalized in order. -/
def search_duckduckgo (O : Oracles) (query : String)
    (max_results : Nat := 5) : List ResearchResult :=
  match O.ddgs query max_results with
  | .error _ => []
  | .ok hits => hits.map toResearchResult

/-- `fetch_page_content` (`agent.py` lines 130-149): `None` on any failure,
otherwise the cleaned text truncated to 10000 characters
(`return text[:10000]`). -/
def fetch_page_content (O : Oracles) (url : String) : Option String :=
  match O.fetchRaw url with
  | .error _ => none
  | .ok text => some (pyTruncate text 10000)

-- --- Angle processing ---

/-- The attachment loop of `process_angle`:
`for i, content in enumerate(contents): if content: results[i].content = content`.
Python truthiness: `None` and the empty string leave the result unchanged. -/
def attachContents : List ResearchResult → List (Option String) → List ResearchResult
  | rs, [] => rs
  | [], _ :: _ => []
  | r :: rs, c :: cs =>
    (match c with
     | some s => if s.isEmpty then r else { r with content := some s }
     | none => r) :: attachContents rs cs

/-- The search step of `process_angle`: query = `f"{plan.topic} {angle}"`,
searched with the default `max_results=5`. -/
def searchResultsFor (O : Oracles) (plan : ResearchPlan) (angle : String) :
    List ResearchResult :=
  search_duckduckgo O (plan.topic ++ " " ++ angle) 5

/-- The fetch step of `process_angle`: page content is fetched for exactly
the first two results (`results[:2]`). -/
def fetchedContents (O : Oracles) (plan : ResearchPlan) (angle : String) :
    List (Option String) :=
  ((searchResultsFor O plan angle).take 2).map (fun r => fetch_page_content O r.url)

/-- The result list after the attachment loop of `process_angle`. -/
def updatedResults (O : Oracles) (plan : ResearchPlan) (angle : String) :
    List ResearchResult :=
  attachContents (searchResultsFor O plan angle) (fetchedContents O plan angle)

/-- One block of the extraction prompt for a result `r`; fetched content is
trimmed a second time (`r.content[:2000]`), and skipped when falsy. -/
def resultBlock (r : ResearchResult) : String :=
  "- Title: " ++ r.title ++ "\n  URL: " ++ r.url ++ "\n  Snippet: " ++ r.snippet ++ "\n"
    ++ (match r.content with
        | some c => if c.isEmpty then "" else "  Content: " ++ pyTruncate c 2000 ++ "...\n"
        | none => "")
    ++ "\n"

/-- The extraction prompt assembled by `process_angle`. -/
def anglePromptFor (O : Oracles) (plan : ResearchPlan) (angle : String) : String :=
  "Topic: " ++ plan.topic ++ "\nAngle: " ++ angle ++ "\n\nSearch Results:\n"
    ++ String.join ((updatedResults O plan angle).map resultBlock)

/-- `process_angle` (`agent.py` lines 217-248): search, fetch the top two
pages, attach content, build the prompt, and extract; on extraction failure
return the safe fallback `AngleData(angle=angle, key_facts=[], claims=[],
citations=[])`. -/
def process_angle (O : Oracles) (plan : ResearchPlan) (angle : String) : AngleData :=
  match O.extractor (anglePromptFor O plan angle) with
  | .ok d => d
  | .error _ => { angle := angle, key_facts := [], claims := [], citations := [] }

-- --- Synthesis and orchestration ---

/-- `"\n".join([f"- {x}" for x in xs])`. -/
def bulletLines (xs : List String) : String :=
  String.intercalate "\n" (xs.map (fun x => "- " ++ x))

/-- One block of the synthesis prompt for one angle's data. -/
def angleBlock (d : AngleData) : String :=
  "\nAngle: " ++ d.angle ++ "\n"
    ++ "Facts:\n" ++ bulletLines d.key_facts ++ "\n"
    ++ "Claims:\n" ++ bulletLines d.claims ++ "\n"
    ++ "Citations:\n" ++ bulletLines d.citations ++ "\n"

/-- The fan-out/fan-in of `deep_research`: one `process_angle` task per
planned angle, results collected in order (`asyncio.gather`). -/
def angleDataList (O : Oracles) (plan : ResearchPlan) : List AngleData :=
  plan.angles.map (process_angle O plan)

/-- The synthesis prompt assembled by `deep_research`. -/
def reportPromptFor (plan : ResearchPlan) (dataList : List AngleData) : String :=
  "Topic: " ++ plan.topic ++ "\nContext: " ++ plan.context ++ "\n\nCollected Data:\n"
    ++ String.join (dataList.map angleBlock)

/-- The synthesis prompt of a run whose planning stage returned `plan0`:
the SWOT rule is applied first, then all angle data is collected. -/
def synthesisPromptFor (O : Oracles) (plan0 : ResearchPlan) : String :=
  let plan := ensure_swot_angle_if_applicable plan0
  reportPromptFor plan (angleDataList O plan)

/-- `deep_research` (`agent.py` lines 199-273): a planning failure returns
`f"Error generating plan: {e}"`; otherwise the SWOT rule is enforced, every
angle is processed, and synthesis either yields the report's
`markdown_content` or the string `f"Error synthesizing report: {e}"`. -/
def deep_research (O : Oracles) (user_input : String) : String :=
  match O.planner user_input with
  | .error e => "Error generating plan: " ++ e
  | .ok plan0 =>
    match O.synthesizer (synthesisPromptFor O plan0) with
    | .error e => "Error synthesizing report: " ++ e
    | .ok r => r.markdown_content

-- --- Concrete oracles and plans used as evaluation inputs ---

/-- An oracle where every external collaborator raises. -/
def oracleFail : Oracles where
  ddgs := fun _ _ => .error "ratelimit"
  fetchRaw := fun _ => .error "timeout"
  planner := fun _ => .error "boom"
  extractor := fun _ => .error "extraction failed"
  synthesizer := fun _ => .error "synthesis failed"

/-- An oracle whose HTTP fetch succeeds with a short page text. -/
def oracleFetchOk : Oracles :=
  { oracleFail with fetchRaw := fun _ => .ok "hello world" }

-- --- Helper lemmas about the SWOT rule ---

/-- `ensure_swot_angle_if_applicable` never touches `is_ticker`. -/
lemma ensure_is_ticker (p : ResearchPlan) :
    (ensure_swot_angle_if_applicable p).is_ticker = p.is_ticker := by
  unfold ensure_swot_angle_if_applicable
  split_ifs <;> rfl

/-- `ensure_swot_angle_if_applicable` never touches `topic`. -/
lemma ensure_topic (p : ResearchPlan) :
    (ensure_swot_angle_if_applicable p).topic = p.topic := by
  unfold ensure_swot_angle_if_applicable
  split_ifs <;> rfl

/-- `ensure_swot_angle_if_applicable` never touches `context`. -/
lemma ensure_context (p : ResearchPlan) :
    (ensure_swot_angle_if_applicable p).context = p.context := by
  unfold ensure_swot_angle_if_applicable
  split_ifs <;> rfl

/-- The trigger condition only reads the untouched fields. -/
lemma needsSwot_ensure (p : ResearchPlan) :
    needsSwot (ensure_swot_angle_if_applicable p) = needsSwot p := by
  unfold needsSwot
  rw [ensure_is_ticker, ensure_topic, ensure_context]

/-- Without the trigger the rule is the identity. -/
lemma ensure_of_not_needs (p : ResearchPlan) (h : needsSwot p = false) :
    ensure_swot_angle_if_applicable p = p := by
  unfold ensure_swot_angle_if_applicable
  simp [h]

/-- With a SWOT angle already present the rule is the identity. -/
lemma ensure_of_hasSwot (p : ResearchPlan) (h1 : needsSwot p = true)
    (h2 : hasSwotAngle p.angles = true) :
    ensure_swot_angle_if_applicable p = p := by
  unfold ensure_swot_angle_if_applicable
  simp [h1, h2]

/-- Replacement branch: trigger on, no SWOT angle, at least 4 angles. -/
lemma ensure_angles_replace (p : ResearchPlan) (h1 : needsSwot p = true)
    (h2 : hasSwotAngle p.angles = false) (h3 : 4 ≤ p.angles.length) :
    (ensure_swot_angle_if_applicable p).angles
      = p.angles.dropLast ++ ["SWOT analysis"] := by
  unfold ensure_swot_angle_if_applicable
  simp [h1, h2, h3]

/-- Append branch: trigger on, no SWOT angle, fewer than 4 angles. -/
lemma ensure_angles_append (p : ResearchPlan) (h1 : needsSwot p = true)
    (h2 : hasSwotAngle p.angles = false) (h3 : p.angles.length < 4) :
    (ensure_swot_angle_if_applicable p).angles
      = p.angles ++ ["SWOT analysis"] := by
  unfold ensure_swot_angle_if_applicable
  simp [h1, h2, Nat.not_le.mpr h3]

/-- The forced angle string satisfies the SWOT test. -/
lemma swotAngle_swotAnalysis : swotAngle "SWOT analysis" = true := by decide

/-- Appending `"SWOT analysis"` makes the SWOT test succeed. -/
lemma hasSwotAngle_append_swot (l : List String) :
    hasSwotAngle (l ++ ["SWOT analysis"]) = true := by
  unfold hasSwotAngle
  rw [List.any_append]
  simp [List.any_cons, swotAngle_swotAnalysis]

-- --- Claim theorems ---

/-- C5: for every query, if the search provider call throws, `search_duckduckgo`
returns the empty list and does not propagate the exception. -/
theorem C5_search_error_empty (O : Oracles) (query : String) (n : Nat)
    (e : String) (h : O.ddgs query n = .error e) :
    search_duckduckgo O query n = [] := by
  unfold search_duckduckgo
  rw [h]

/-- C5 witness: a provider that raises yields the empty result list. -/
theorem C5_witness : search_duckduckgo oracleFail "q" 5 = [] :=
  C5_search_error_empty oracleFail "q" 5 "ratelimit" rfl

/-- C6: for every URL, if the HTTP fetch fails in any way,
`fetch_page_content` returns `none` and does not propagate the exception. -/
theorem C6_fetch_error_none (O : Oracles) (url : String)
    (e : String) (h : O.fetchRaw url = .error e) :
    fetch_page_content O url = none := by
  unfold fetch_page_content
  rw [h]

/-- C6 witness: a failing fetch yields `none`. -/
theorem C6_witness : fetch_page_content oracleFail "http://x" = none :=
  C6_fetch_error_none oracleFail "http://x" "timeout" rfl

/-- C7: whenever `fetch_page_content` succeeds, the returned string is the
cleaned page text truncated to 10000 characters, so its length is at most
10000. -/
theorem C7_fetch_truncated (O : Oracles) (url : String) (s : String)
    (h : fetch_page_content O url = some s) :
    (∃ raw, O.fetchRaw url = .ok raw ∧ s = pyTruncate raw 10000) ∧
      s.length ≤ 10000 := by
  unfold fetch_page_content at h
  cases hr : O.fetchRaw url with
  | error e => rw [hr] at h; exact absurd h (by simp)
  | ok raw =>
    rw [hr] at h
    have hs : s = pyTruncate raw 10000 := by
      simpa using h.symm
    refine ⟨⟨raw, rfl, hs⟩, ?_⟩
    rw [hs]
    unfold pyTruncate
    rw [String.length_mk]
    calc (raw.data.take 10000).length = min 10000 raw.data.length :=
          List.length_take 10000 raw.data
      _ ≤ 10000 := Nat.min_le_left _ _

/-- C7 witness: a successful fetch of a short page returns it whole, within
the 10000-character budget. -/
theorem C7_witness :
    fetch_page_content oracleFetchOk "http://x" = some "hello world" ∧
      ("hello world" : String).length ≤ 10000 :=
  ⟨rfl, (C7_fetch_truncated oracleFetchOk "http://x" "hello world" rfl).2⟩

/-- The plan used to exercise the C2 replacement branch. -/
def planC2 : ResearchPlan :=
  ⟨true, "Tesla", "", ["recent performance", "market positioning", "guidance", "rivals"]⟩

/-- C2: a triggering plan with exactly 4 angles and no SWOT angle gets its
last angle replaced by `"SWOT analysis"`: the length stays 4 and the first
three angles are unchanged. -/
theorem C2_replace_last (p : ResearchPlan)
    (htrig : needsSwot p = true)
    (hlen : p.angles.length = 4)
    (hno : hasSwotAngle p.angles = false) :
    (ensure_swot_angle_if_applicable p).angles
        = p.angles.dropLast ++ ["SWOT analysis"] ∧
    (ensure_swot_angle_if_applicable p).angles.length = 4 ∧
    (ensure_swot_angle_if_applicable p).angles.take 3
        = p.angles.take 3 := by
  have hrepl := ensure_angles_replace p htrig hno (by omega)
  have hdl : p.angles.dropLast.length = 3 := by
    rw [List.length_dropLast, hlen]
  refine ⟨hrepl, ?_, ?_⟩
  · rw [hrepl, List.length_append, hdl]
    rfl
  · rw [hrepl]
    have hleft : (p.angles.dropLast ++ ["SWOT analysis"]).take p.angles.dropLast.length
        = p.angles.dropLast := List.take_left _ _
    rw [hdl] at hleft
    rw [hleft, List.dropLast_eq_take, hlen]

/-- C2 witness: a concrete 4-angle ticker plan has its last angle replaced. -/
theorem C2_witness :
    (ensure_swot_angle_if_applicable planC2).angles
        = planC2.angles.dropLast ++ ["SWOT analysis"] ∧
    (ensure_swot_angle_if_applicable planC2).angles.length = 4 ∧
    (ensure_swot_angle_if_applicable planC2).angles.take 3
        = planC2.angles.take 3 :=
  C2_replace_last planC2 (by decide) rfl (by decide)

/-- C9: `ensure_swot_angle_if_applicable` is idempotent: applying it twice
yields the same plan as applying it once. -/
theorem C9_idempotent (p : ResearchPlan) :
    ensure_swot_angle_if_applicable (ensure_swot_angle_if_applicable p)
      = ensure_swot_angle_if_applicable p := by
  cases h1 : needsSwot p with
  | false =>
    rw [ensure_of_not_needs p h1, ensure_of_not_needs p h1]
  | true =>
    cases h2 : hasSwotAngle p.angles with
    | true =>
      rw [ensure_of_hasSwot p h1 h2, ensure_of_hasSwot p h1 h2]
    | false =>
      by_cases h3 : 4 ≤ p.angles.length
      · have hang := ensure_angles_replace p h1 h2 h3
        exact ensure_of_hasSwot _ (by rw [needsSwot_ensure]; exact h1)
          (by rw [hang]; exact hasSwotAngle_append_swot _)
      · have hang := ensure_angles_append p h1 h2 (by omega)
        exact ensure_of_hasSwot _ (by rw [needsSwot_ensure]; exact h1)
          (by rw [hang]; exact hasSwotAngle_append_swot _)

/-- The plan used to exercise the C10 no-trigger case. -/
def planC10 : ResearchPlan :=
  ⟨false, "math", "pure topology", ["history", "open problems", "applications"]⟩

/-- C10: the rule never modifies `is_ticker`, `topic` or `context`, and when
neither trigger condition holds the angle list is also unchanged. -/
theorem C10_frame (p : ResearchPlan) :
    (ensure_swot_angle_if_applicable p).is_ticker = p.is_ticker ∧
    (ensure_swot_angle_if_applicable p).topic = p.topic ∧
    (ensure_swot_angle_if_applicable p).context = p.context ∧
    (needsSwot p = false →
      (ensure_swot_angle_if_applicable p).angles = p.angles) :=
  ⟨ensure_is_ticker p, ensure_topic p, ensure_context p,
    fun h => by rw [ensure_of_not_needs p h]⟩

/-- C10 witness: a non-financial plan is left entirely unchanged. -/
theorem C10_witness :
    (ensure_swot_angle_if_applicable planC10).is_ticker = planC10.is_ticker ∧
    (ensure_swot_angle_if_applicable planC10).angles = planC10.angles :=
  ⟨(C10_frame planC10).1, (C10_frame planC10).2.2.2 (by decide)⟩

/-- A ticker-flagged plan, well-formed per the data model (3 angles), that
already carries two SWOT-mentioning angles. -/
def planC1cex : ResearchPlan :=
  ⟨true, "Tesla", "", ["SWOT strengths", "SWOT weaknesses", "guidance"]⟩

/-- C1 counterexample: for this ticker-flagged 3-angle plan the rule leaves
both SWOT-mentioning angles in place, so the result does not contain exactly
one SWOT angle. -/
theorem C1_counterexample :
    needsSwot planC1cex = true ∧ planC1cex.angles.length = 3 ∧
    ¬((ensure_swot_angle_if_applicable planC1cex).angles.countP swotAngle = 1 ∧
      3 ≤ (ensure_swot_angle_if_applicable planC1cex).angles.length ∧
      (ensure_swot_angle_if_applicable planC1cex).angles.length ≤ 4) := by
  decide

/-- C1 (amended): for every plan with 3 or 4 angles of which at most one
mentions SWOT, if the ticker flag is true or the combined topic+context
contains a financial keyword, then after the rule the plan has exactly one
SWOT angle and 3 or 4 angles in total. -/
theorem C1_swot_exactly_one (p : ResearchPlan)
    (hlen3 : 3 ≤ p.angles.length) (hlen4 : p.angles.length ≤ 4)
    (hcount : p.angles.countP swotAngle ≤ 1)
    (htrig : needsSwot p = true) :
    (ensure_swot_angle_if_applicable p).angles.countP swotAngle = 1 ∧
    3 ≤ (ensure_swot_angle_if_applicable p).angles.length ∧
    (ensure_swot_angle_if_applicable p).angles.length ≤ 4 := by
  cases h2 : hasSwotAngle p.angles with
  | true =>
    rw [ensure_of_hasSwot p htrig h2]
    have hpos : 0 < p.angles.countP swotAngle := by
      rw [List.countP_pos_iff]
      exact List.any_eq_true.mp h2
    exact ⟨by omega, hlen3, hlen4⟩
  | false =>
    have hzero : p.angles.countP swotAngle = 0 := by
      rw [List.countP_eq_zero]
      exact fun a ha => by
        have := List.any_eq_false.mp h2 a ha
        simpa using this
    have hone : List.countP swotAngle ["SWOT analysis"] = 1 := by decide
    by_cases h3 : 4 ≤ p.angles.length
    · have hang := ensure_angles_replace p htrig h2 h3
      have hdzero : p.angles.dropLast.countP swotAngle = 0 := by
        rw [List.countP_eq_zero]
        intro a ha
        exact (List.countP_eq_zero.mp hzero) a (List.dropLast_subset _ ha)
      constructor
      · rw [hang, List.countP_append, hdzero, hone]
      · rw [hang, List.length_append, List.length_dropLast, List.length_singleton]
        omega
    · have hang := ensure_angles_append p htrig h2 (by omega)
      constructor
      · rw [hang, List.countP_append, hzero, hone]
      · rw [hang, List.length_append, List.length_singleton]
        constructor <;> omega

/-- A 3-angle ticker plan with no SWOT angle, for the C1 witness. -/
def planC1 : ResearchPlan :=
  ⟨true, "Volkswagen", "automotive",
    ["recent performance", "market positioning", "guidance"]⟩

/-- C1 witness: the amended statement evaluated on a concrete ticker plan. -/
theorem C1_witness :
    (ensure_swot_angle_if_applicable planC1).angles.countP swotAngle = 1 ∧
    3 ≤ (ensure_swot_angle_if_applicable planC1).angles.length ∧
    (ensure_swot_angle_if_applicable planC1).angles.length ≤ 4 :=
  C1_swot_exactly_one planC1 (by decide) (by decide) (by decide) (by decide)

/-- C4 (amended): a planning failure makes `deep_research` return exactly
`"Error generating plan: "` followed by the exception text — independent of
everything after planning — and a synthesis failure makes it return exactly
`"Error synthesizing report: "` followed by the exception text. -/
theorem C4_error_strings (O : Oracles) (input e : String) :
    (O.planner input = .error e →
      deep_research O input = "Error generating plan: " ++ e) ∧
    (∀ p0, O.planner input = .ok p0 →
      O.synthesizer (synthesisPromptFor O p0) = .error e →
      deep_research O input = "Error synthesizing report: " ++ e) := by
  constructor
  · intro h
    unfold deep_research
    rw [h]
  · intro p0 h1 h2
    simp only [deep_research, h1, h2]

/-- C4 counterexample: the planning exception `"boom"` is not returned
verbatim as the entire response; the response carries the
`"Error generating plan: "` prefix. -/
theorem C4_counterexample :
    oracleFail.planner "TSLA" = .error "boom" ∧
    deep_research oracleFail "TSLA" ≠ "boom" ∧
    deep_research oracleFail "TSLA" = "Error generating plan: boom" :=
  ⟨rfl, by decide, rfl⟩

/-- The plan produced by the planner in the C4 synthesis-failure witness. -/
def planC4 : ResearchPlan :=
  ⟨false, "math", "pure topology", ["history"]⟩

/-- An oracle whose planner succeeds but whose synthesizer raises. -/
def oracleC4 : Oracles :=
  { oracleFail with planner := fun _ => .ok planC4 }

/-- C4 witness: both error strings observed on concrete runs. -/
theorem C4_witness :
    deep_research oracleFail "TSLA" = "Error generating plan: boom" ∧
    deep_research oracleC4 "TSLA" = "Error synthesizing report: synthesis failed" :=
  ⟨(C4_error_strings oracleFail "TSLA" "boom").1 rfl,
   (C4_error_strings oracleC4 "TSLA" "synthesis failed").2 planC4 rfl rfl⟩

/-- The plan used in the C3 witness. -/
def planC3 : ResearchPlan :=
  ⟨false, "quantum computing", "", ["hardware", "algorithms"]⟩

/-- C3: if the extraction call for the angle at index `i` throws, the
collected list still has one entry per planned angle, the failing angle's
entry is the placeholder with the planned angle string and empty lists, and
every angle whose extraction succeeds keeps its extracted data. -/
theorem C3_failed_angle_placeholder (O : Oracles) (p : ResearchPlan)
    (i : Nat) (a e : String)
    (ha : p.angles.get? i = some a)
    (hext : O.extractor (anglePromptFor O p a) = .error e) :
    (angleDataList O p).length = p.angles.length ∧
    (angleDataList O p).get? i
        = some { angle := a, key_facts := [], claims := [], citations := [] } ∧
    (∀ j b d, p.angles.get? j = some b →
      O.extractor (anglePromptFor O p b) = .ok d →
      (angleDataList O p).get? j = some d) := by
  refine ⟨List.length_map _ _, ?_, ?_⟩
  · rw [angleDataList, List.get?_map, ha]
    simp only [Option.map_some']
    unfold process_angle
    rw [hext]
  · intro j b d hb hok
    rw [angleDataList, List.get?_map, hb]
    simp only [Option.map_some']
    unfold process_angle
    rw [hok]

/-- C3 witness: with an always-failing extractor, the first angle's entry is
the empty placeholder and the collected list still has one entry per angle. -/
theorem C3_witness :
    (angleDataList oracleFail planC3).length = planC3.angles.length ∧
    (angleDataList oracleFail planC3).get? 0
        = some { angle := "hardware", key_facts := [], claims := [], citations := [] } :=
  ⟨(C3_failed_angle_placeholder oracleFail planC3 0 "hardware" "extraction failed"
      rfl rfl).1,
   (C3_failed_angle_placeholder oracleFail planC3 0 "hardware" "extraction failed"
      rfl rfl).2.1⟩

-- --- Helper lemmas about the attachment loop ---

/-- The attachment loop preserves the length of the result list. -/
lemma attachContents_length (rs : List ResearchResult)
    (cs : List (Option String)) :
    (attachContents rs cs).length = rs.length := by
  induction rs generalizing cs with
  | nil => cases cs <;> rfl
  | cons r rs ih =>
    cases cs with
    | nil => rfl
    | cons c cs => simp [attachContents, ih]

/-- Positions where the fetched content is absent (index beyond the fetched
prefix) or `none` are left untouched by the attachment loop. -/
lemma attachContents_get?_of_blank (rs : List ResearchResult)
    (cs : List (Option String)) (i : Nat)
    (h : cs.get? i = none ∨ cs.get? i = some none) :
    (attachContents rs cs).get? i = rs.get? i := by
  induction rs generalizing cs i with
  | nil => cases cs <;> rfl
  | cons r rs ih =>
    cases cs with
    | nil => rfl
    | cons c cs =>
      cases i with
      | zero =>
        have hc : c = none := by
          rcases h with h | h
          · exact absurd h (by simp)
          · simpa using h
        subst hc
        rfl
      | succ i =>
        have := ih cs i (by simpa using h)
        simpa [attachContents] using this

/-- Every result produced by `search_duckduckgo` starts with `content = none`. -/
lemma searchResults_content_none (O : Oracles) (p : ResearchPlan)
    (angle : String) (i : Nat) (r : ResearchResult)
    (h : (searchResultsFor O p angle).get? i = some r) :
    r.content = none := by
  unfold searchResultsFor search_duckduckgo at h
  cases hd : O.ddgs (p.topic ++ " " ++ angle) 5 with
  | error e => rw [hd] at h; exact absurd h (by simp)
  | ok hits =>
    rw [hd, List.get?_map] at h
    cases hh : hits.get? i with
    | none => rw [hh] at h; exact absurd h (by simp)
    | some x =>
      rw [hh] at h
      have : toResearchResult x = r := by simpa using h
      rw [← this]
      rfl

/-- C8: page content is fetched for exactly the first two search results
(`min 2 N` fetches); after the attachment loop every result at index 2 or
beyond still has `content = none`, and a result whose fetch returned `none`
is left entirely unchanged. -/
theorem C8_content_attachment (O : Oracles) (p : ResearchPlan) (angle : String) :
    (fetchedContents O p angle).length
        = min 2 (searchResultsFor O p angle).length ∧
    (∀ i r, 2 ≤ i →
      (updatedResults O p angle).get? i = some r → r.content = none) ∧
    (∀ i r0, (searchResultsFor O p angle).get? i = some r0 →
      fetch_page_content O r0.url = none →
      (updatedResults O p angle).get? i = some r0) := by
  have hlen : (fetchedContents O p angle).length
      = min 2 (searchResultsFor O p angle).length := by
    unfold fetchedContents
    rw [List.length_map, List.length_take]
  refine ⟨hlen, ?_, ?_⟩
  · intro i r h2 hr
    have hblank : (fetchedContents O p angle).get? i = none := by
      rw [List.get?_eq_none, hlen]
      omega
    rw [updatedResults,
      attachContents_get?_of_blank _ _ i (Or.inl hblank)] at hr
    exact searchResults_content_none O p angle i r hr
  · intro i r0 hres hfetch
    have hblank : (fetchedContents O p angle).get? i = none ∨
        (fetchedContents O p angle).get? i = some none := by
      by_cases hi : i < 2
      · right
        unfold fetchedContents
        rw [List.get?_map, List.get?_take hi, hres]
        simp [hfetch]
      · left
        rw [List.get?_eq_none, hlen]
        omega
    rw [updatedResults, attachContents_get?_of_blank _ _ i hblank]
    exact hres

/-- The plan used in the C8 witness. -/
def planC8 : ResearchPlan :=
  ⟨false, "rust", "", ["ownership"]⟩

/-- An oracle whose search yields three hits while every fetch fails. -/
def oracleC8 : Oracles :=
  { oracleFail with
    ddgs := fun _ _ => .ok
      [⟨some "t1", some "u1", some "s1"⟩,
       ⟨some "t2", some "u2", some "s2"⟩,
       ⟨some "t3", some "u3", some "s3"⟩] }

/-- C8 witness: with three search hits only two fetches happen, the third
result keeps `content = none`, and a result whose fetch failed is unchanged. -/
theorem C8_witness :
    (fetchedContents oracleC8 planC8 "ang").length
        = min 2 (searchResultsFor oracleC8 planC8 "ang").length ∧
    (⟨"t3", "u3", "s3", none⟩ : ResearchResult).content = none ∧
    (updatedResults oracleC8 planC8 "ang").get? 0
        = some ⟨"t1", "u1", "s1", none⟩ :=
  ⟨(C8_content_attachment oracleC8 planC8 "ang").1,
   (C8_content_attachment oracleC8 planC8 "ang").2.1 2
      ⟨"t3", "u3", "s3", none⟩ (by decide) (by decide),
   (C8_content_attachment oracleC8 planC8 "ang").2.2 0
      ⟨"t1", "u1", "s1", none⟩ (by decide) (by decide)⟩

end Agent
